import Mathlib

/-!
Shallow embedding of the Liontech School Management System
(`app/models.py`, `app/routes.py`): a Flask/SQLAlchemy CRUD service for
students, teachers and classes.

Modelling choices:
* JSON payloads are association lists of string keys to scalar JSON
  values (`PVal`); the handlers only ever read scalar payload fields.
  `JObj.getD` is Python's `dict.get(key, default)` and `JObj.get` is
  `dict.get(key)` (default `None`).
* Python truthiness (`not data.get(...)`) is `PVal.truthy`.
* The database is an in-memory record of the three tables plus the next
  surrogate id each table would assign.
* `datetime.now().timestamp()` and the various `utcnow` defaults are
  passed in as explicit string parameters (`ts`, `now`, ...), since the
  claims only concern how the handlers use them.
* A mutating handler can hit an exception when it commits
  (`db.session.commit()`); this is modelled by an `exc : Option String`
  parameter: `some m` means the commit raised an exception whose
  `str(e)` is `m`.  The `try/except` + `db.session.rollback()` structure
  of the handlers means the pre-request state is returned in that case.
* `Query.paginate(page=page, per_page=per_page)` is Flask-SQLAlchemy's
  paginate with its default `error_out=True`: it aborts with a 404
  `werkzeug` `NotFound` exception when `page < 1`, when `per_page < 0`,
  or when the page is empty and `page != 1`; that exception is caught by
  the handler's `except Exception` clause and surfaced as a 500
  response (str(e) of `NotFound`), which `paginate` models with
  `Except.error`.
-/

namespace School

/-- Scalar JSON value as found in request payloads and stored columns. -/
inductive PVal where
  | null : PVal
  | bool : Bool → PVal
  | str : String → PVal
  | int : Int → PVal
  deriving Repr, DecidableEq

/-- Python truthiness of a scalar JSON value: `None`, `False`, `""` and
`0` are falsy, everything else is truthy. -/
def PVal.truthy : PVal → Bool
  | .null => false
  | .bool b => b
  | .str s => s != ""
  | .int n => n != 0

/-- A JSON object (request payload): an association list, first
occurrence of a key wins, mirroring a Python dict. -/
abbrev JObj := List (String × PVal)

/-- Python's `dict.get(key, default)`. -/
def JObj.getD (d : JObj) (k : String) (v : PVal) : PVal :=
  match List.lookup k d with
  | some x => x
  | none => v

/-- Python's `dict.get(key)`: default `None`. -/
def JObj.get (d : JObj) (k : String) : PVal :=
  d.getD k PVal.null

/-- A serialized entity (`to_dict` output): flat string-to-scalar map. -/
abbrev Dict := List (String × PVal)

/-- Response body: either a flat JSON object (errors, messages, single
entities) or a listing object `\x7bkey: [dicts], ...meta\x7d` as produced by
the collection endpoints. -/
inductive RespBody where
  | obj (d : Dict)
  | listing (key : String) (items : List Dict) (meta : Dict)
  deriving Repr, DecidableEq

/-- An HTTP response: status code and JSON body. -/
structure Response where
  status : Nat
  body : RespBody
  deriving Repr, DecidableEq

/-- Row of the `students` table (`models.py`, class `Student`).
Payload-derived columns keep the scalar JSON value the handler stored;
`date_of_birth` / `class_id` are the nullable columns never set by any
handler; `enrollment_date` holds the `isoformat` timestamp of the
`datetime.utcnow` column default. -/
structure Student where
  id : Nat
  student_id : PVal
  first_name : PVal
  last_name : PVal
  email : PVal
  phone : PVal
  date_of_birth : Option String
  enrollment_date : String
  class_id : Option Nat
  status : PVal
  deriving Repr, DecidableEq

/-- `Student.to_dict` from `models.py`. -/
def Student.to_dict (s : Student) : Dict :=
  [("id", PVal.int s.id),
   ("student_id", s.student_id),
   ("first_name", s.first_name),
   ("last_name", s.last_name),
   ("email", s.email),
   ("phone", s.phone),
   ("date_of_birth", match s.date_of_birth with
     | some d => PVal.str d
     | none => PVal.null),
   ("enrollment_date", PVal.str s.enrollment_date),
   ("class_id", match s.class_id with
     | some c => PVal.int c
     | none => PVal.null),
   ("status", s.status)]

/-- Row of the `teachers` table (`models.py`, class `Teacher`). -/
structure Teacher where
  id : Nat
  teacher_id : PVal
  first_name : PVal
  last_name : PVal
  email : PVal
  phone : PVal
  specialization : PVal
  hire_date : String
  status : PVal
  deriving Repr, DecidableEq

/-- `Teacher.to_dict` from `models.py`. -/
def Teacher.to_dict (t : Teacher) : Dict :=
  [("id", PVal.int t.id),
   ("teacher_id", t.teacher_id),
   ("first_name", t.first_name),
   ("last_name", t.last_name),
   ("email", t.email),
   ("phone", t.phone),
   ("specialization", t.specialization),
   ("hire_date", PVal.str t.hire_date),
   ("status", t.status)]

/-- Row of the `classes` table (`models.py`, class `Class`; named
`SchoolClass` here because `Class` collides with a Mathlib definition). -/
structure SchoolClass where
  id : Nat
  class_name : PVal
  grade_level : PVal
  teacher_id : PVal
  max_capacity : PVal
  room_number : PVal
  status : PVal
  deriving Repr, DecidableEq

/-- `Class.to_dict` from `models.py`: `student_count` is
`len(self.students)`, the students whose `class_id` foreign key names
this class (the `db.relationship('Student', backref='class_rel')`). -/
def SchoolClass.to_dict (c : SchoolClass) (allStudents : List Student) : Dict :=
  [("id", PVal.int c.id),
   ("class_name", c.class_name),
   ("grade_level", c.grade_level),
   ("teacher_id", c.teacher_id),
   ("max_capacity", c.max_capacity),
   ("room_number", c.room_number),
   ("status", c.status),
   ("student_count",
     PVal.int (allStudents.countP (fun s => s.class_id == some c.id)))]

/-- The storage state: the three tables plus the next surrogate primary
key each table would assign on insert. -/
structure DB where
  students : List Student
  teachers : List Teacher
  classes : List SchoolClass
  nextStudentId : Nat
  nextTeacherId : Nat
  nextClassId : Nat
  deriving Repr, DecidableEq

/-- The `str(e)` of the `werkzeug` `NotFound` exception that
`abort(404)` raises inside Flask-SQLAlchemy's `paginate`. -/
def notFoundAbortMessage : String :=
  "404 Not Found: The requested URL was not found on the server. If you entered the URL manually please check your spelling and try again."

/-- Flask-SQLAlchemy `Query.paginate(page=page, per_page=per_page)` with
its default `error_out=True`, over an in-memory table: returns the items
of the requested 1-based page, the total row count and the page count,
or raises (`Except.error`) the `NotFound` abort for `page < 1`,
`per_page < 0`, or an empty page other than page 1. -/
def paginate (xs : List α) (page per_page : Int) :
    Except String (List α × Nat × Nat) :=
  if page < 1 then Except.error notFoundAbortMessage
  else if per_page < 0 then Except.error notFoundAbortMessage
  else
    let items := (xs.drop ((page - 1) * per_page).toNat).take per_page.toNat
    if items.isEmpty && page != 1 then Except.error notFoundAbortMessage
    else
      let pages := if per_page == 0 then 0
        else (xs.length + per_page.toNat - 1) / per_page.toNat
      Except.ok (items, xs.length, pages)

/-- Shared shape of the `jsonify({'error': ...}), code` responses. -/
def errorResponse (code : Nat) (msg : String) : Response :=
  ⟨code, RespBody.obj [("error", PVal.str msg)]⟩

/-- `GET /api/students/` (`routes.py`, `get_all_students`): paginate the
students table; a paginate abort is caught by the handler's
`except Exception` and surfaced as a 500 error response. -/
def get_all_students (db : DB) (page per_page : Int) : Response :=
  match paginate db.students page per_page with
  | Except.error msg => errorResponse 500 msg
  | Except.ok (items, total, pages) =>
      ⟨200, RespBody.listing "students" (items.map Student.to_dict)
        [("total", PVal.int total),
         ("pages", PVal.int pages),
         ("current_page", PVal.int page)]⟩

/-- `Student.query.get(student_id)`: primary-key lookup. -/
def findStudent (db : DB) (sid : Nat) : Option Student :=
  db.students.find? (fun s => s.id == sid)

/-- `GET /api/students/<id>` (`routes.py`, `get_student`). -/
def get_student (db : DB) (sid : Nat) : Response :=
  match findStudent db sid with
  | none => errorResponse 404 "Student not found"
  | some s => ⟨200, RespBody.obj s.to_dict⟩

/-- The `Student(...)` row built by `create_student` in `routes.py`:
`student_id` defaults to `STU-` + `datetime.now().timestamp()` (here the
parameter `ts`); `status` is the literal `active`; `date_of_birth`,
`class_id`, `enrollment_date` are not read from the payload and take the
model column defaults, with `now` the `utcnow` enrollment default. -/
def newStudent (db : DB) (data : JObj) (ts now : String) : Student :=
  { id := db.nextStudentId,
    student_id := data.getD "student_id" (PVal.str ("STU-" ++ ts)),
    first_name := data.get "first_name",
    last_name := data.get "last_name",
    email := data.get "email",
    phone := data.get "phone",
    date_of_birth := none,
    enrollment_date := now,
    class_id := none,
    status := PVal.str "active" }

/-- `POST /api/students/` (`routes.py`, `create_student`): validates
truthiness of `first_name`, `last_name`, `email`; builds the new row;
commits, rolling back to the pre-request state if the commit raises
`exc`. -/
def create_student (db : DB) (data : JObj) (ts now : String)
    (exc : Option String) : Response × DB :=
  if !(data.get "first_name").truthy || !(data.get "last_name").truthy
      || !(data.get "email").truthy then
    (errorResponse 400 "Missing required fields", db)
  else
    match exc with
    | some m => (errorResponse 500 m, db)
    | none =>
        (⟨201, RespBody.obj (newStudent db data ts now).to_dict⟩,
         { db with students := db.students ++ [newStudent db data ts now],
                   nextStudentId := db.nextStudentId + 1 })

/-- The field overwrites of `update_student` (`routes.py` lines
128-133): each of the five mutable fields takes
`data.get(key, current value)`. -/
def Student.applyUpdate (s : Student) (data : JObj) : Student :=
  { s with
    first_name := data.getD "first_name" s.first_name,
    last_name := data.getD "last_name" s.last_name,
    email := data.getD "email" s.email,
    phone := data.getD "phone" s.phone,
    status := data.getD "status" s.status }

/-- `PUT /api/students/<id>` (`routes.py`, `update_student`). -/
def update_student (db : DB) (sid : Nat) (data : JObj)
    (exc : Option String) : Response × DB :=
  match findStudent db sid with
  | none => (errorResponse 404 "Student not found", db)
  | some s =>
      let s2 := s.applyUpdate data
      match exc with
      | some m => (errorResponse 500 m, db)
      | none =>
          (⟨200, RespBody.obj s2.to_dict⟩,
           { db with students :=
               db.students.map (fun t => if t.id == sid then s2 else t) })

/-- `DELETE /api/students/<id>` (`routes.py`, `delete_student`). -/
def delete_student (db : DB) (sid : Nat) (exc : Option String) :
    Response × DB :=
  match findStudent db sid with
  | none => (errorResponse 404 "Student not found", db)
  | some _ =>
      match exc with
      | some m => (errorResponse 500 m, db)
      | none =>
          (⟨200, RespBody.obj [("message", PVal.str "Student deleted successfully")]⟩,
           { db with students := db.students.filter (fun t => !(t.id == sid)) })

/-- The `Teacher(...)` row built by `create_teacher` in `routes.py`:
`teacher_id` defaults to `TCH-` + `datetime.now().timestamp()`, `status`
is the literal `active`, `hire` is the `utcnow` hire-date default. -/
def newTeacher (db : DB) (data : JObj) (ts hire : String) : Teacher :=
  { id := db.nextTeacherId,
    teacher_id := data.getD "teacher_id" (PVal.str ("TCH-" ++ ts)),
    first_name := data.get "first_name",
    last_name := data.get "last_name",
    email := data.get "email",
    phone := data.get "phone",
    specialization := data.get "specialization",
    hire_date := hire,
    status := PVal.str "active" }

/-- `POST /api/teachers/` (`routes.py`, `create_teacher`): same pattern
as `create_student`, extra `specialization` field. -/
def create_teacher (db : DB) (data : JObj) (ts hire : String)
    (exc : Option String) : Response × DB :=
  if !(data.get "first_name").truthy || !(data.get "last_name").truthy
      || !(data.get "email").truthy then
    (errorResponse 400 "Missing required fields", db)
  else
    match exc with
    | some m => (errorResponse 500 m, db)
    | none =>
        (⟨201, RespBody.obj (newTeacher db data ts hire).to_dict⟩,
         { db with teachers := db.teachers ++ [newTeacher db data ts hire],
                   nextTeacherId := db.nextTeacherId + 1 })

/-- `GET /api/classes/` (`routes.py`, `get_all_classes`): all classes,
no pagination, `total` is the length of the returned list. -/
def get_all_classes (db : DB) : Response :=
  ⟨200, RespBody.listing "classes"
    (db.classes.map (fun c => c.to_dict db.students))
    [("total", PVal.int db.classes.length)]⟩

/-- The `Class(...)` row built by `create_class` in `routes.py`:
`max_capacity` defaults to 40, `status` is the literal `active`. -/
def newClass (db : DB) (data : JObj) : SchoolClass :=
  { id := db.nextClassId,
    class_name := data.get "class_name",
    grade_level := data.get "grade_level",
    teacher_id := data.get "teacher_id",
    max_capacity := data.getD "max_capacity" (PVal.int 40),
    room_number := data.get "room_number",
    status := PVal.str "active" }

/-- `POST /api/classes/` (`routes.py`, `create_class`): requires truthy
`class_name` and `grade_level`; commits the new class, rolling back to
the pre-request state if the commit raises `exc`. -/
def create_class (db : DB) (data : JObj) (exc : Option String) :
    Response × DB :=
  if !(data.get "class_name").truthy || !(data.get "grade_level").truthy then
    (errorResponse 400 "Missing required fields", db)
  else
    match exc with
    | some m => (errorResponse 500 m, db)
    | none =>
        (⟨201, RespBody.obj ((newClass db data).to_dict db.students)⟩,
         { db with classes := db.classes ++ [newClass db data],
                   nextClassId := db.nextClassId + 1 })

/-! Concrete example data used by counterexamples and witnesses. -/

/-- A concrete stored student with primary key `i`. -/
def exStudent (i : Nat) : Student :=
  { id := i,
    student_id := PVal.str ("S-" ++ toString i),
    first_name := PVal.str "Ada",
    last_name := PVal.str "Lovelace",
    email := PVal.str ("ada" ++ toString i ++ "@school.test"),
    phone := PVal.str "555-0100",
    date_of_birth := none,
    enrollment_date := "2026-01-01T00:00:00",
    class_id := none,
    status := PVal.str "active" }

/-- A concrete storage state holding exactly one student. -/
def exDB : DB :=
  { students := [exStudent 1], teachers := [], classes := [],
    nextStudentId := 2, nextTeacherId := 1, nextClassId := 1 }

/-- A concrete valid creation payload covering every entity's required
fields, with no external code supplied. -/
def fullData : JObj :=
  [("first_name", PVal.str "Ada"), ("last_name", PVal.str "Lovelace"),
   ("email", PVal.str "ada@school.test"), ("class_name", PVal.str "Math-1"),
   ("grade_level", PVal.str "Grade 5")]

/-! Helper lemmas about payload lookups. -/

/-- A key absent from the payload reads as `None`. -/
theorem JObj.get_eq_null_of_lookup_none {data : JObj} {k : String}
    (h : List.lookup k data = none) : data.get k = PVal.null := by
  simp [JObj.get, JObj.getD, h]

/-- A key present in the payload reads as its value. -/
theorem JObj.get_eq_of_lookup_some {data : JObj} {k : String} {v : PVal}
    (h : List.lookup k data = some v) : data.get k = v := by
  simp [JObj.get, JObj.getD, h]

/-- Items of a successful paginate call: at most `per_page` of them, and
the reported total is the full table size. -/
theorem paginate_ok_spec {α : Type} {xs : List α} {page s : Int}
    {items : List α} {total pages : Nat}
    (h : paginate xs page s = Except.ok (items, total, pages)) :
    items.length ≤ s.toNat ∧ total = xs.length := by
  unfold paginate at h
  split at h
  · exact absurd h (by simp)
  split at h
  · exact absurd h (by simp)
  dsimp only at h
  split at h
  · exact absurd h (by simp)
  simp only [Except.ok.injEq, Prod.mk.injEq] at h
  obtain ⟨h1, h2, h3⟩ := h
  subst h1
  subst h2
  refine ⟨?_, rfl⟩
  calc (List.take s.toNat (xs.drop ((page - 1) * s).toNat)).length
      ≤ s.toNat := by
        rw [List.length_take]
        exact min_le_left _ _

/-- A page strictly past the data (with `page > 1`) makes paginate
abort with the 404 `NotFound` exception. -/
theorem paginate_out_of_range {α : Type} {xs : List α} {page s : Int}
    (hp : 1 < page) (hlen : xs.length ≤ ((page - 1) * s).toNat) :
    paginate xs page s = Except.error notFoundAbortMessage := by
  unfold paginate
  split
  · rfl
  split
  · rfl
  dsimp only
  rw [List.drop_eq_nil_of_le hlen]
  simp only [List.take_nil, List.isEmpty_nil, Bool.true_and]
  split
  · rfl
  rename_i hcond
  exfalso
  simp only [bne_iff_ne, ne_eq, Decidable.not_not] at hcond
  omega

/-- C1: the claim as stated is false on the code: an out-of-range page
does not yield a 200 response with an empty items list.  With one
stored student, requesting page 2 of size 10 hits Flask-SQLAlchemy's
`error_out=True` abort, which the handler's `except Exception` converts
into a 500 error response. -/
theorem C1_counterexample :
    get_all_students exDB 2 10 = errorResponse 500 notFoundAbortMessage ∧
    (get_all_students exDB 2 10).status ≠ 200 := by
  constructor
  · rfl
  · decide

/-- C1 (amended): requesting page `p` with size `s` returns at most `s`
items and a `total` equal to the full student count whenever the
response is 200 (so the last page may hold fewer than `s` items), but a
page number strictly past the data (p > 1) yields a 500 error response
carrying the paginate abort message, not a 200 with an empty list. -/
theorem C1_pagination (db : DB) (page s : Int) :
    (∀ items meta,
      get_all_students db page s = ⟨200, RespBody.listing "students" items meta⟩ →
      items.length ≤ s.toNat ∧
        List.lookup "total" meta = some (PVal.int db.students.length)) ∧
    (1 < page → db.students.length ≤ ((page - 1) * s).toNat →
      get_all_students db page s = errorResponse 500 notFoundAbortMessage) := by
  constructor
  · intro items meta h
    unfold get_all_students at h
    generalize hpag : paginate db.students page s = r at h
    match r with
    | Except.error msg => exact absurd h (by simp [errorResponse])
    | Except.ok (its, total, pages) =>
      obtain ⟨hb, hlen⟩ := paginate_ok_spec hpag
      simp only [Response.mk.injEq, RespBody.listing.injEq] at h
      obtain ⟨-, -, hitems, hmeta⟩ := h
      subst hitems
      subst hmeta
      constructor
      · rw [List.length_map]
        exact hb
      · rw [hlen]
        rfl
  · intro hp hlen
    unfold get_all_students
    rw [paginate_out_of_range hp hlen]

/-- C1 witness: page 1 of size 10 succeeds with 200, while page 3 of
size 10 over the one-student store is out of range and yields the 500
abort response. -/
theorem C1_pagination_witness :
    (get_all_students exDB 1 10).status = 200 ∧
    get_all_students exDB 3 10 = errorResponse 500 notFoundAbortMessage :=
  ⟨rfl, (C1_pagination exDB 3 10).2 (by decide) (by decide)⟩

/-- C2: a creation payload lacking any required key (first_name,
last_name, email for students and teachers; class_name, grade_level for
classes) makes the handler return 400 with the message
`Missing required fields` and leave the storage state untouched. -/
theorem C2_missing_required (db : DB) (ts now hire : String) (exc : Option String) :
    (∀ data : JObj,
      (List.lookup "first_name" data = none ∨ List.lookup "last_name" data = none ∨
        List.lookup "email" data = none) →
      create_student db data ts now exc =
        (errorResponse 400 "Missing required fields", db)) ∧
    (∀ data : JObj,
      (List.lookup "first_name" data = none ∨ List.lookup "last_name" data = none ∨
        List.lookup "email" data = none) →
      create_teacher db data ts hire exc =
        (errorResponse 400 "Missing required fields", db)) ∧
    (∀ data : JObj,
      (List.lookup "class_name" data = none ∨ List.lookup "grade_level" data = none) →
      create_class db data exc =
        (errorResponse 400 "Missing required fields", db)) := by
  refine ⟨?_, ?_, ?_⟩
  · intro data h
    rcases h with h | h | h <;>
      simp [create_student, JObj.get_eq_null_of_lookup_none h, PVal.truthy]
  · intro data h
    rcases h with h | h | h <;>
      simp [create_teacher, JObj.get_eq_null_of_lookup_none h, PVal.truthy]
  · intro data h
    rcases h with h | h <;>
      simp [create_class, JObj.get_eq_null_of_lookup_none h, PVal.truthy]

/-- C2 witness: a student payload missing `last_name` and `email` is
rejected with 400 and the store is unchanged. -/
theorem C2_missing_required_witness :
    create_student exDB [("first_name", PVal.str "Ada")] "ts" "now" none =
      (errorResponse 400 "Missing required fields", exDB) :=
  (C2_missing_required exDB "ts" "now" "hire" none).1
    [("first_name", PVal.str "Ada")] (Or.inr (Or.inl rfl))

/-- C3: a PUT on an existing student overwrites exactly the supplied
ones of first_name, last_name, email, phone, status, keeps the prior
value of every omitted field, never changes id, student_id,
date_of_birth, class_id or enrollment_date, returns 200 with the
serialized updated student, and a PUT supplying no fields leaves the
student (hence every serialized field) unchanged. -/
theorem C3_put_semantics (db : DB) (sid : Nat) (data : JObj) (s : Student)
    (h : findStudent db sid = some s) :
    (update_student db sid data none).1 =
      ⟨200, RespBody.obj (s.applyUpdate data).to_dict⟩ ∧
    (∀ v, List.lookup "first_name" data = some v →
      (s.applyUpdate data).first_name = v) ∧
    (∀ v, List.lookup "last_name" data = some v →
      (s.applyUpdate data).last_name = v) ∧
    (∀ v, List.lookup "email" data = some v → (s.applyUpdate data).email = v) ∧
    (∀ v, List.lookup "phone" data = some v → (s.applyUpdate data).phone = v) ∧
    (∀ v, List.lookup "status" data = some v → (s.applyUpdate data).status = v) ∧
    (List.lookup "first_name" data = none →
      (s.applyUpdate data).first_name = s.first_name) ∧
    (List.lookup "last_name" data = none →
      (s.applyUpdate data).last_name = s.last_name) ∧
    (List.lookup "email" data = none → (s.applyUpdate data).email = s.email) ∧
    (List.lookup "phone" data = none → (s.applyUpdate data).phone = s.phone) ∧
    (List.lookup "status" data = none → (s.applyUpdate data).status = s.status) ∧
    (s.applyUpdate data).id = s.id ∧
    (s.applyUpdate data).student_id = s.student_id ∧
    (s.applyUpdate data).date_of_birth = s.date_of_birth ∧
    (s.applyUpdate data).class_id = s.class_id ∧
    (s.applyUpdate data).enrollment_date = s.enrollment_date ∧
    (data = [] → s.applyUpdate data = s) := by
  refine ⟨by simp [update_student, h], ?_, ?_, ?_, ?_, ?_, ?_, ?_, ?_, ?_, ?_,
    rfl, rfl, rfl, rfl, rfl, ?_⟩
  all_goals
    first
    | (intro v hv; simp [Student.applyUpdate, JObj.getD, hv])
    | (intro hv; simp [Student.applyUpdate, JObj.getD, hv])

/-- C3 witness: updating the stored student with only a phone value
yields 200 with the serialized update, the phone is overwritten, and
the omitted first_name is kept. -/
theorem C3_put_semantics_witness :
    (update_student exDB 1 [("phone", PVal.str "555-0199")] none).1 =
      ⟨200, RespBody.obj
        ((exStudent 1).applyUpdate [("phone", PVal.str "555-0199")]).to_dict⟩ ∧
    ((exStudent 1).applyUpdate [("phone", PVal.str "555-0199")]).phone =
      PVal.str "555-0199" ∧
    ((exStudent 1).applyUpdate [("phone", PVal.str "555-0199")]).first_name =
      (exStudent 1).first_name := by
  have h := C3_put_semantics exDB 1 [("phone", PVal.str "555-0199")] (exStudent 1) rfl
  exact ⟨h.1, h.2.2.2.2.1 (PVal.str "555-0199") rfl, h.2.2.2.2.2.2.1 rfl⟩

/-- C4: GET, PUT and DELETE on an id that names no stored student each
return 404 with the message `Student not found` and leave the storage
state unchanged. -/
theorem C4_not_found (db : DB) (sid : Nat) (data : JObj) (exc : Option String)
    (h : findStudent db sid = none) :
    get_student db sid = errorResponse 404 "Student not found" ∧
    update_student db sid data exc = (errorResponse 404 "Student not found", db) ∧
    delete_student db sid exc = (errorResponse 404 "Student not found", db) := by
  refine ⟨?_, ?_, ?_⟩ <;>
    simp [get_student, update_student, delete_student, h]

/-- C4 witness: id 99 is absent from the one-student store, so all
three methods return the 404 and the state is untouched. -/
theorem C4_not_found_witness :
    get_student exDB 99 = errorResponse 404 "Student not found" ∧
    update_student exDB 99 [] none = (errorResponse 404 "Student not found", exDB) ∧
    delete_student exDB 99 none = (errorResponse 404 "Student not found", exDB) :=
  C4_not_found exDB 99 [] none rfl

/-- C5: when the commit raises an exception with message `m`, every
mutating handler (student create, update, delete; teacher create; class
create) returns 500 with `m` as the error detail and rolls back, so the
resulting storage state equals the pre-request state. -/
theorem C5_exception_rollback (db : DB) (m : String) (data : JObj)
    (ts now hire : String) (sid : Nat) :
    ((data.get "first_name").truthy = true → (data.get "last_name").truthy = true →
      (data.get "email").truthy = true →
      create_student db data ts now (some m) = (errorResponse 500 m, db)) ∧
    (∀ s, findStudent db sid = some s →
      update_student db sid data (some m) = (errorResponse 500 m, db)) ∧
    (∀ s, findStudent db sid = some s →
      delete_student db sid (some m) = (errorResponse 500 m, db)) ∧
    ((data.get "first_name").truthy = true → (data.get "last_name").truthy = true →
      (data.get "email").truthy = true →
      create_teacher db data ts hire (some m) = (errorResponse 500 m, db)) ∧
    ((data.get "class_name").truthy = true → (data.get "grade_level").truthy = true →
      create_class db data (some m) = (errorResponse 500 m, db)) := by
  refine ⟨?_, ?_, ?_, ?_, ?_⟩
  · intro h1 h2 h3
    simp [create_student, h1, h2, h3]
  · intro s hs
    simp [update_student, hs]
  · intro s hs
    simp [delete_student, hs]
  · intro h1 h2 h3
    simp [create_teacher, h1, h2, h3]
  · intro h1 h2
    simp [create_class, h1, h2]

/-- C5 witness: with a valid payload and a commit that raises `boom`,
the student create and update handlers both answer 500 `boom` and the
store is exactly the pre-request store. -/
theorem C5_exception_rollback_witness :
    create_student exDB fullData "ts" "now" (some "boom") =
      (errorResponse 500 "boom", exDB) ∧
    update_student exDB 1 fullData (some "boom") =
      (errorResponse 500 "boom", exDB) ∧
    create_class exDB fullData (some "boom") = (errorResponse 500 "boom", exDB) := by
  have h := C5_exception_rollback exDB "boom" fullData "ts" "now" "hire" 1
  exact ⟨h.1 rfl rfl rfl, h.2.1 (exStudent 1) rfl, h.2.2.2.2 rfl rfl⟩

/-- A concrete stored class with primary key 1. -/
def exClass : SchoolClass :=
  { id := 1, class_name := PVal.str "Math-1", grade_level := PVal.str "Grade 5",
    teacher_id := PVal.null, max_capacity := PVal.int 40,
    room_number := PVal.null, status := PVal.str "active" }

/-- A concrete storage state with one class and two students, exactly
one of which is enrolled in the class. -/
def exClassDB : DB :=
  { students := [exStudent 1, { exStudent 2 with class_id := some 1 }],
    teachers := [], classes := [exClass],
    nextStudentId := 3, nextTeacherId := 1, nextClassId := 2 }

/-- C6: a valid student or teacher creation payload that supplies no
external code gets the generated fallback code, the fixed prefix
(`STU-` / `TCH-`) followed by the current epoch timestamp `ts`, and the
response is 201 with the serialized entity. -/
theorem C6_generated_code (db : DB) (data : JObj) (ts now hire : String)
    (h1 : (data.get "first_name").truthy = true)
    (h2 : (data.get "last_name").truthy = true)
    (h3 : (data.get "email").truthy = true)
    (hs : List.lookup "student_id" data = none)
    (ht : List.lookup "teacher_id" data = none) :
    (∃ st : Student,
      create_student db data ts now none =
        (⟨201, RespBody.obj st.to_dict⟩,
         { db with students := db.students ++ [st],
                   nextStudentId := db.nextStudentId + 1 }) ∧
      st.student_id = PVal.str ("STU-" ++ ts)) ∧
    (∃ t : Teacher,
      create_teacher db data ts hire none =
        (⟨201, RespBody.obj t.to_dict⟩,
         { db with teachers := db.teachers ++ [t],
                   nextTeacherId := db.nextTeacherId + 1 }) ∧
      t.teacher_id = PVal.str ("TCH-" ++ ts)) := by
  constructor
  · refine ⟨newStudent db data ts now, ?_, ?_⟩
    · simp [create_student, h1, h2, h3]
    · simp [newStudent, JObj.getD, hs]
  · refine ⟨newTeacher db data ts hire, ?_, ?_⟩
    · simp [create_teacher, h1, h2, h3]
    · simp [newTeacher, JObj.getD, ht]

/-- C6 witness: creating from the concrete valid payload (which carries
no `student_id`) stores a student whose code is `STU-` followed by the
supplied timestamp, with a 201 serialized-entity response. -/
theorem C6_generated_code_witness :
    ∃ st : Student,
      create_student exDB fullData "1700000000.123" "2026-01-02T00:00:00" none =
        (⟨201, RespBody.obj st.to_dict⟩,
         { exDB with students := exDB.students ++ [st],
                     nextStudentId := exDB.nextStudentId + 1 }) ∧
      st.student_id = PVal.str ("STU-" ++ "1700000000.123") :=
  (C6_generated_code exDB fullData "1700000000.123" "2026-01-02T00:00:00" "hire"
    (by decide) (by decide) (by decide) (by decide) (by decide)).1

/-- C7: `GET /api/classes/` returns every stored class without
pagination, `total` equals the number of classes returned, and each
serialized class reports a `student_count` equal to the number of
stored students whose `class_id` names that class. -/
theorem C7_classes_listing (db : DB) :
    (get_all_classes db).status = 200 ∧
    (get_all_classes db).body =
      RespBody.listing "classes"
        (db.classes.map (fun c => c.to_dict db.students))
        [("total", PVal.int db.classes.length)] ∧
    (db.classes.map (fun c => c.to_dict db.students)).length =
      db.classes.length ∧
    (∀ c ∈ db.classes,
      List.lookup "student_count" (c.to_dict db.students) =
        some (PVal.int (db.students.countP (fun s => s.class_id == some c.id)))) := by
  refine ⟨rfl, rfl, List.length_map _ _, ?_⟩
  intro c hc
  rfl

/-- C7 witness: on the concrete store with one class and one enrolled
student, the listing is a 200 and that class serializes with
`student_count` 1. -/
theorem C7_classes_listing_witness :
    (get_all_classes exClassDB).status = 200 ∧
    List.lookup "student_count" (exClass.to_dict exClassDB.students) =
      some (PVal.int 1) := by
  have h := C7_classes_listing exClassDB
  exact ⟨h.1, h.2.2.2 exClass (by decide)⟩

/-- The payload keys `create_student` actually reads. -/
def studentReadKeys : List String :=
  ["student_id", "first_name", "last_name", "email", "phone"]

/-- The payload keys `create_teacher` actually reads. -/
def teacherReadKeys : List String :=
  ["teacher_id", "first_name", "last_name", "email", "phone", "specialization"]

/-- Extraction lemma: any student the create handler appended is the
constructed `newStudent` row. -/
theorem create_student_appended {db : DB} {data : JObj} {ts now : String}
    {exc : Option String} {st : Student}
    (h : (create_student db data ts now exc).2.students = db.students ++ [st]) :
    st = newStudent db data ts now := by
  unfold create_student at h
  split at h
  · exfalso
    have hl := congrArg List.length h
    simp only [List.length_append, List.length_singleton] at hl
    omega
  split at h
  · exfalso
    have hl := congrArg List.length h
    simp only [List.length_append, List.length_singleton] at hl
    omega
  · dsimp only at h
    have h2 := List.append_cancel_left h
    simp only [List.cons.injEq, and_true] at h2
    exact h2.symm

/-- Extraction lemma: any teacher the create handler appended is the
constructed `newTeacher` row. -/
theorem create_teacher_appended {db : DB} {data : JObj} {ts hire : String}
    {exc : Option String} {t : Teacher}
    (h : (create_teacher db data ts hire exc).2.teachers = db.teachers ++ [t]) :
    t = newTeacher db data ts hire := by
  unfold create_teacher at h
  split at h
  · exfalso
    have hl := congrArg List.length h
    simp only [List.length_append, List.length_singleton] at hl
    omega
  split at h
  · exfalso
    have hl := congrArg List.length h
    simp only [List.length_append, List.length_singleton] at hl
    omega
  · dsimp only at h
    have h2 := List.append_cancel_left h
    simp only [List.cons.injEq, and_true] at h2
    exact h2.symm

/-- C8: every student or teacher the create handlers store has status
`active` (for students also default `date_of_birth`, `class_id` and
enrollment timestamp) regardless of the payload, and the handlers read
only their listed payload keys: two payloads agreeing on those keys
(in particular differing arbitrarily on `status`, `date_of_birth`,
`class_id`, `enrollment_date`) produce identical results. -/
theorem C8_fixed_status_defaults (db : DB) (data data2 : JObj)
    (ts now hire : String) (exc : Option String) :
    (∀ st : Student,
      (create_student db data ts now exc).2.students = db.students ++ [st] →
      st.status = PVal.str "active" ∧ st.date_of_birth = none ∧
        st.class_id = none ∧ st.enrollment_date = now) ∧
    (∀ t : Teacher,
      (create_teacher db data ts hire exc).2.teachers = db.teachers ++ [t] →
      t.status = PVal.str "active") ∧
    ((∀ k ∈ studentReadKeys, List.lookup k data = List.lookup k data2) →
      create_student db data ts now exc = create_student db data2 ts now exc) ∧
    ((∀ k ∈ teacherReadKeys, List.lookup k data = List.lookup k data2) →
      create_teacher db data ts hire exc = create_teacher db data2 ts hire exc) := by
  refine ⟨?_, ?_, ?_, ?_⟩
  · intro st h
    rw [create_student_appended h]
    exact ⟨rfl, rfl, rfl, rfl⟩
  · intro t h
    rw [create_teacher_appended h]
    rfl
  · intro hk
    have e0 := hk "student_id" (by simp [studentReadKeys])
    have e1 := hk "first_name" (by simp [studentReadKeys])
    have e2 := hk "last_name" (by simp [studentReadKeys])
    have e3 := hk "email" (by simp [studentReadKeys])
    have e4 := hk "phone" (by simp [studentReadKeys])
    unfold create_student newStudent JObj.get JObj.getD
    rw [e0, e1, e2, e3, e4]
  · intro hk
    have e0 := hk "teacher_id" (by simp [teacherReadKeys])
    have e1 := hk "first_name" (by simp [teacherReadKeys])
    have e2 := hk "last_name" (by simp [teacherReadKeys])
    have e3 := hk "email" (by simp [teacherReadKeys])
    have e4 := hk "phone" (by simp [teacherReadKeys])
    have e5 := hk "specialization" (by simp [teacherReadKeys])
    unfold create_teacher newTeacher JObj.get JObj.getD
    rw [e0, e1, e2, e3, e4, e5]

/-- C8 witness: appending a caller-supplied `status` and `class_id` to
the valid payload changes nothing about the create result. -/
theorem C8_fixed_status_defaults_witness :
    create_student exDB
        (fullData ++ [("status", PVal.str "graduated"), ("class_id", PVal.int 7)])
        "ts" "now" none =
      create_student exDB fullData "ts" "now" none :=
  (C8_fixed_status_defaults exDB
    (fullData ++ [("status", PVal.str "graduated"), ("class_id", PVal.int 7)])
    fullData "ts" "now" "hire" none).2.2.1 (by decide)

/-- C9: a creation payload in which a required key is present but holds
a falsy value (null, empty string, false, zero) is rejected with 400
`Missing required fields` exactly as if the key were absent, and the
store is unchanged: the validation tests truthiness, not key presence. -/
theorem C9_falsy_required (db : DB) (data : JObj) (v : PVal)
    (ts now hire : String) (exc : Option String) (hv : v.truthy = false) :
    ((List.lookup "first_name" data = some v ∨
        List.lookup "last_name" data = some v ∨
        List.lookup "email" data = some v) →
      create_student db data ts now exc =
        (errorResponse 400 "Missing required fields", db) ∧
      create_teacher db data ts hire exc =
        (errorResponse 400 "Missing required fields", db)) ∧
    ((List.lookup "class_name" data = some v ∨
        List.lookup "grade_level" data = some v) →
      create_class db data exc =
        (errorResponse 400 "Missing required fields", db)) := by
  constructor
  · intro h
    rcases h with h | h | h <;>
      exact ⟨by simp [create_student, JObj.get_eq_of_lookup_some h, hv],
             by simp [create_teacher, JObj.get_eq_of_lookup_some h, hv]⟩
  · intro h
    rcases h with h | h <;>
      simp [create_class, JObj.get_eq_of_lookup_some h, hv]

/-- C9 witness: a payload whose `first_name` is the empty string (all
keys present) is rejected with 400 and the store is unchanged. -/
theorem C9_falsy_required_witness :
    create_student exDB
        [("first_name", PVal.str ""), ("last_name", PVal.str "Lovelace"),
         ("email", PVal.str "ada@school.test")] "ts" "now" none =
      (errorResponse 400 "Missing required fields", exDB) :=
  ((C9_falsy_required exDB
      [("first_name", PVal.str ""), ("last_name", PVal.str "Lovelace"),
       ("email", PVal.str "ada@school.test")]
      (PVal.str "") "ts" "now" "hire" none (by decide)).1 (Or.inl rfl)).1

/-- C10: a PUT payload key present with an explicit null overwrites the
corresponding stored field with null, unlike an omitted key, which
keeps the prior value: `data.get(key, current)` falls back to the
stored value only when the key is absent. -/
theorem C10_null_overwrite (db : DB) (sid : Nat) (data : JObj) (s : Student)
    (h : findStudent db sid = some s) :
    (update_student db sid data none).1 =
      ⟨200, RespBody.obj (s.applyUpdate data).to_dict⟩ ∧
    (List.lookup "first_name" data = some PVal.null →
      (s.applyUpdate data).first_name = PVal.null) ∧
    (List.lookup "last_name" data = some PVal.null →
      (s.applyUpdate data).last_name = PVal.null) ∧
    (List.lookup "email" data = some PVal.null →
      (s.applyUpdate data).email = PVal.null) ∧
    (List.lookup "phone" data = some PVal.null →
      (s.applyUpdate data).phone = PVal.null) ∧
    (List.lookup "status" data = some PVal.null →
      (s.applyUpdate data).status = PVal.null) ∧
    (List.lookup "phone" data = none →
      (s.applyUpdate data).phone = s.phone) := by
  refine ⟨by simp [update_student, h], ?_, ?_, ?_, ?_, ?_, ?_⟩
  all_goals
    intro hv
    simp [Student.applyUpdate, JObj.getD, hv]

/-- C10 witness: a PUT carrying `phone: null` on the stored student
(whose phone is non-null) stores a null phone and answers 200 with the
serialized update. -/
theorem C10_null_overwrite_witness :
    ((exStudent 1).applyUpdate [("phone", PVal.null)]).phone = PVal.null ∧
    (exStudent 1).phone = PVal.str "555-0100" ∧
    (update_student exDB 1 [("phone", PVal.null)] none).1 =
      ⟨200, RespBody.obj ((exStudent 1).applyUpdate [("phone", PVal.null)]).to_dict⟩ := by
  have h := C10_null_overwrite exDB 1 [("phone", PVal.null)] (exStudent 1) rfl
  exact ⟨h.2.2.2.2.1 rfl, rfl, h.1⟩

end School
